import Mathlib

/-!
Shallow embedding of the tidb-operator reconciliation status-derivation tasks
(PD and TiKV components), the TiKV PVC task and the TiKV ConfigMap task.

The status-derivation and ConfigMap task bodies are modelled from the
specification (spec.md section 4.4 and section 7), since only their tests are
part of the sources; every modelled definition is checked below against the
concrete expectations recorded in those tests (status_test.go for PD and TiKV).
The PVC task is embedded directly from its source (tikv tasks pvc.go).
-/

/-- Outcome status codes of one pipeline task (the task/v3 Result statuses
SComplete, SWait, SRetry, SRetryAfter, SFail, SPauseAndRetry). -/
inductive TaskStatusCode
  | complete
  | wait
  | retry
  | retryAfter
  | fail
  | pauseAndRetry
  deriving DecidableEq

/-- Status of a metav1 condition: True / False / Unknown. -/
inductive ConditionStatus
  | ctrue
  | cfalse
  | cunknown
  deriving DecidableEq

/-- A persisted status condition (metav1.Condition shape). -/
structure Condition where
  ctype : String
  status : ConditionStatus
  observedGeneration : Int
  reason : String
  message : String
  lastTransitionTime : Nat
  deriving DecidableEq

/-- A freshly computed condition before the merge with the previously
persisted list: everything but the lastTransitionTime. -/
structure CondSpec where
  ctype : String
  status : ConditionStatus
  reason : String
  message : String
  deriving DecidableEq

/-- Look up a condition by its type in a condition list (meta.FindStatusCondition). -/
def findCond (conds : List Condition) (t : String) : Option Condition :=
  conds.find? (fun c => decide (c.ctype = t))

/-- Status of the condition of type `t` in `conds`, if present. -/
def condStatusOf (conds : List Condition) (t : String) : Option ConditionStatus :=
  (findCond conds t).map Condition.status

/-- Reason of the condition of type `t` in `conds`, if present. -/
def condReasonOf (conds : List Condition) (t : String) : Option String :=
  (findCond conds t).map Condition.reason

/-- Merge one computed condition against the previously persisted list
(spec 4.4 step 5): if the previous condition of the same type has the same
status, its lastTransitionTime is kept; otherwise (changed or newly added)
the lastTransitionTime is set to `now`.  The observedGeneration, reason and
message are always refreshed. -/
def setCond (old : List Condition) (gen : Int) (now : Nat) (s : CondSpec) : Condition :=
  match findCond old s.ctype with
  | some o =>
    if o.status = s.status then
      ⟨s.ctype, s.status, gen, s.reason, s.message, o.lastTransitionTime⟩
    else
      ⟨s.ctype, s.status, gen, s.reason, s.message, now⟩
  | none => ⟨s.ctype, s.status, gen, s.reason, s.message, now⟩

/-- Kubernetes-style label map, read with the zero value for a missing key. -/
def getLabel (labels : List (String × String)) (k : String) : String :=
  match labels.find? (fun kv => decide (kv.fst = k)) with
  | some kv => kv.snd
  | none => ""

def labelKeyInstanceRevisionHash : String := "pingcap.com/instance-revision-hash"

def condHealth : String := "Health"

def condSuspended : String := "Suspended"

def condInitialized : String := "Initialized"

def condLeadersEvicted : String := "LeadersEvicted"

def storeStateServing : String := "Serving"

def podPhaseRunning : String := "Running"

def podCondReady : String := "Ready"

def podCondStatusTrue : String := "True"

/-- A pod condition (corev1.PodCondition shape, status as the string enum). -/
structure PodCondition where
  ctype : String
  status : String
  deriving DecidableEq

/-- The observed workload pod: only the pieces the status task reads. -/
structure Pod where
  labels : List (String × String)
  phase : String
  conditions : List PodCondition
  deriving DecidableEq

/-- The pod phase is Running and the pod reports the Ready condition True. -/
def isPodRunningAndReady (p : Pod) : Bool :=
  decide (p.phase = podPhaseRunning) &&
    p.conditions.any (fun c => decide (c.ctype = podCondReady) && decide (c.status = podCondStatusTrue))

/-- Fail-closed lift to an optional pod: an absent pod is never running-and-ready. -/
def podRunningAndReady : Option Pod → Bool
  | some p => isPodRunningAndReady p
  | none => false

/-- The revision-hash label carried by the pod itself (empty when absent). -/
def podRevisionHash : Option Pod → String
  | some p => getLabel p.labels labelKeyInstanceRevisionHash
  | none => ""

/-- The Health condition content (spec 4.4 step 2). -/
def healthSpec (healthy : Bool) : CondSpec :=
  ⟨condHealth,
   if healthy = true then ConditionStatus.ctrue else ConditionStatus.cfalse,
   if healthy = true then "Healthy" else "Unhealthy",
   if healthy = true then "instance is healthy" else "instance is not healthy"⟩

/-- The Suspended condition content (spec 4.4 step 3); the message string
mirrors the literal recorded in the tests. -/
def suspendedSpec (suspended : Bool) : CondSpec :=
  ⟨condSuspended,
   if suspended = true then ConditionStatus.ctrue else ConditionStatus.cfalse,
   if suspended = true then "Suspended" else "Unsuspended",
   if suspended = true then "instace is suspended" else "instace is not suspended"⟩

/-- The PD Initialized condition content (spec 4.4 step 4). -/
def initializedSpec (initialized : Bool) : CondSpec :=
  ⟨condInitialized,
   if initialized = true then ConditionStatus.ctrue else ConditionStatus.cfalse,
   if initialized = true then "Initialized" else "Uninitialized",
   if initialized = true then "instance is initialized" else "instance has not been initialized yet"⟩

/-- An external store record (pdv1.Store), opaque beyond its presence. -/
structure Store where
  id : String
  deriving DecidableEq

/-- Status, reason and message of the TiKV LeadersEvicted condition
(spec 4.4 step 4): store gone with PD available is vacuously evicted with
reason StoreIsRemoved; eviction requested while PD is unavailable is
not-yet-evicted. -/
def leadersEvictedFields (pdAvail evicting : Bool) (store : Option Store) :
    ConditionStatus × String × String :=
  if pdAvail = true then
    match store with
    | none => (ConditionStatus.ctrue, "StoreIsRemoved", "store does not exist")
    | some _ =>
      if evicting = true then (ConditionStatus.ctrue, "Evicted", "all leaders are evicted")
      else (ConditionStatus.cfalse, "NotEvicted", "leaders are not all evicted")
  else (ConditionStatus.cfalse, "NotEvicted", "leaders are not all evicted")

/-- The TiKV LeadersEvicted condition content. -/
def leadersEvictedSpec (pdAvail evicting : Bool) (store : Option Store) : CondSpec :=
  ⟨condLeadersEvicted,
   (leadersEvictedFields pdAvail evicting store).fst,
   (leadersEvictedFields pdAvail evicting store).snd.fst,
   (leadersEvictedFields pdAvail evicting store).snd.snd⟩

/-- The status sub-object of a PD instance. -/
structure PDStatus where
  observedGeneration : Int
  id : String
  isLeader : Bool
  currentRevision : String
  updateRevision : String
  conditions : List Condition
  deriving DecidableEq

/-- The PD primary object: the pieces the status task reads. -/
structure PDObj where
  generation : Int
  labels : List (String × String)
  status : PDStatus
  deriving DecidableEq

/-- The accumulated observations consumed by the PD status task
(ReconcileContext in the PD tasks package). -/
structure PDReconcileContext where
  pd : PDObj
  pod : Option Pod
  podIsTerminating : Bool
  suspended : Bool
  healthy : Bool
  initialized : Bool
  isLeader : Bool
  memberID : String
  deriving DecidableEq

/-- Modelled from the spec: the fail-closed health boolean of the PD status
task (spec 4.4 step 1) — pod exists, is running and ready, is not marked
terminating and the external liveness signal is true. -/
def pdHealth (rc : PDReconcileContext) : Bool :=
  podRunningAndReady rc.pod && !rc.podIsTerminating && rc.healthy

/-- The new PD condition list, re-emitted in the fixed type-defined order
Initialized, Health, Suspended (spec 4.4 step 5). -/
def pdNewConds (old : List Condition) (gen : Int) (now : Nat)
    (initialized healthy suspended : Bool) : List Condition :=
  [setCond old gen now (initializedSpec initialized),
   setCond old gen now (healthSpec healthy),
   setCond old gen now (suspendedSpec suspended)]

/-- Modelled from the spec: the status sub-object the PD status task computes
(spec 4.4 steps 1 to 7); the implementation (pd tasks status.go) is not among
the sources, only its test is.  currentRevision is advanced to the pod's own
revision hash exactly when the health boolean holds, as the test cases
"not init" versus "not init and not healthy" require; otherwise the previously
persisted value is kept. -/
def pdDeriveStatus (rc : PDReconcileContext) (now : Nat) : PDStatus :=
  { observedGeneration := rc.pd.generation
    id := rc.memberID
    isLeader := rc.isLeader
    currentRevision :=
      if pdHealth rc = true then podRevisionHash rc.pod else rc.pd.status.currentRevision
    updateRevision := getLabel rc.pd.labels labelKeyInstanceRevisionHash
    conditions :=
      pdNewConds rc.pd.status.conditions rc.pd.generation now
        rc.initialized (pdHealth rc) rc.suspended }

/-- Modelled from the spec: the PD status task's own Result decision
(spec 4.4 step 9). -/
def pdResult (rc : PDReconcileContext) : TaskStatusCode :=
  if rc.podIsTerminating = true then TaskStatusCode.retry
  else if (pdHealth rc && rc.initialized) = false then TaskStatusCode.wait
  else TaskStatusCode.complete

/-- What one task run leaves behind: the persisted status sub-object, the
task's Result status, and the stop boolean reported by RunTask. -/
structure TaskOutcome (σ : Type) where
  persisted : σ
  result : TaskStatusCode
  stop : Bool
  deriving DecidableEq

/-- Modelled from the spec: the PD status task (spec 4.4).  `updateErr`
injects a conflict or backend error into the single conditional status
update (spec 4.4 step 8): the write does not apply, the task returns Fail
and performs no local retry. -/
def pdTaskStatus (rc : PDReconcileContext) (now : Nat) (updateErr : Bool) :
    TaskOutcome PDStatus :=
  if updateErr = true then
    { persisted := rc.pd.status, result := TaskStatusCode.fail, stop := false }
  else
    { persisted := pdDeriveStatus rc now, result := pdResult rc, stop := false }

/-- The status sub-object of a TiKV instance. -/
structure TiKVStatus where
  observedGeneration : Int
  id : String
  state : String
  currentRevision : String
  updateRevision : String
  conditions : List Condition
  deriving DecidableEq

/-- The TiKV primary object: the pieces the status task reads. -/
structure TiKVObj where
  generation : Int
  labels : List (String × String)
  status : TiKVStatus
  deriving DecidableEq

/-- The accumulated observations consumed by the TiKV status task
(ReconcileContext in the TiKV tasks package). -/
structure TiKVReconcileContext where
  tikv : TiKVObj
  pod : Option Pod
  podIsTerminating : Bool
  suspended : Bool
  isPDAvailable : Bool
  leaderEvicting : Bool
  store : Option Store
  storeID : String
  storeState : String
  deriving DecidableEq

/-- Modelled from the spec: the fail-closed health boolean of the TiKV status
task — pod exists, is running and ready, is not marked terminating and the
external liveness signal (the store serving state) is true. -/
def tikvHealth (rc : TiKVReconcileContext) : Bool :=
  podRunningAndReady rc.pod && !rc.podIsTerminating && decide (rc.storeState = storeStateServing)

/-- The new TiKV condition list, re-emitted in the fixed type-defined order
Health, Suspended, LeadersEvicted (spec 4.4 step 5). -/
def tikvNewConds (old : List Condition) (gen : Int) (now : Nat)
    (healthy suspended pdAvail evicting : Bool) (store : Option Store) : List Condition :=
  [setCond old gen now (healthSpec healthy),
   setCond old gen now (suspendedSpec suspended),
   setCond old gen now (leadersEvictedSpec pdAvail evicting store)]

/-- Modelled from the spec: the status sub-object the TiKV status task
computes (spec 4.4 steps 1 to 7); the implementation (tikv tasks status.go)
is not among the sources, only its test is.  The identity fields id and
state are refreshed from the external signal only while PD is available
(spec 4.4 step 6); currentRevision is advanced exactly when the health
boolean holds, as the test cases "pod is healthy" versus "not serving"
require. -/
def tikvDeriveStatus (rc : TiKVReconcileContext) (now : Nat) : TiKVStatus :=
  { observedGeneration := rc.tikv.generation
    id := if rc.isPDAvailable = true then rc.storeID else rc.tikv.status.id
    state := if rc.isPDAvailable = true then rc.storeState else rc.tikv.status.state
    currentRevision :=
      if tikvHealth rc = true then podRevisionHash rc.pod else rc.tikv.status.currentRevision
    updateRevision := getLabel rc.tikv.labels labelKeyInstanceRevisionHash
    conditions :=
      tikvNewConds rc.tikv.status.conditions rc.tikv.generation now
        (tikvHealth rc) rc.suspended rc.isPDAvailable rc.leaderEvicting rc.store }

/-- Modelled from the spec: the TiKV status task's own Result decision
(spec 4.4 step 9): Retry while the pod is terminating, Wait while not yet
healthy or while leader eviction is still requested, Complete otherwise
(the test case "evicting and pd is avail" fixes the eviction branch). -/
def tikvResult (rc : TiKVReconcileContext) : TaskStatusCode :=
  if rc.podIsTerminating = true then TaskStatusCode.retry
  else if (!tikvHealth rc || rc.leaderEvicting) = true then TaskStatusCode.wait
  else TaskStatusCode.complete

/-- Modelled from the spec: the TiKV status task (spec 4.4), with `updateErr`
injecting a failure of the single conditional status update. -/
def tikvTaskStatus (rc : TiKVReconcileContext) (now : Nat) (updateErr : Bool) :
    TaskOutcome TiKVStatus :=
  if updateErr = true then
    { persisted := rc.tikv.status, result := TaskStatusCode.fail, stop := false }
  else
    { persisted := tikvDeriveStatus rc now, result := tikvResult rc, stop := false }

/-- The three observable outcomes of volumes.SyncPVCs as seen by TaskPVC:
an error, a still-waiting signal, or fully synced. -/
inductive SyncPVCsOutcome
  | err
  | waiting
  | synced
  deriving DecidableEq

/-- The TiKV PVC task, embedded from its source (tikv tasks pvc.go): a sync
error yields Fail; a sync that must still wait yields Complete with a
waiting message; a finished sync yields Complete. -/
def taskPVC : SyncPVCsOutcome → TaskStatusCode × String
  | SyncPVCsOutcome.err => (TaskStatusCode.fail, "failed to sync pvcs")
  | SyncPVCsOutcome.waiting => (TaskStatusCode.complete, "waiting for pvcs to be synced")
  | SyncPVCsOutcome.synced => (TaskStatusCode.complete, "pvcs are synced")

/-- The embedded TiKV configuration, already lexed: either unparseable or a
list of assigned field names. -/
inductive TiKVConfig
  | unparseable
  | fields : List String → TiKVConfig
  deriving DecidableEq

/-- Field names of the TiKV configuration that the operator manages itself:
a user-supplied configuration may not set them. -/
def tikvManagedFields : List String :=
  ["server.addr", "server.advertise-addr", "server.status-addr",
   "server.advertise-status-addr", "storage.data-dir", "pd.endpoints"]

/-- Whether the configuration sets an operator-managed field. -/
def hasManagedField : TiKVConfig → Bool
  | TiKVConfig.unparseable => false
  | TiKVConfig.fields fs => fs.any (fun f => tikvManagedFields.contains f)

/-- The configuration hash computed for a valid configuration; never empty. -/
def hashConfig (fs : List String) : String :=
  "v1-" ++ String.intercalate "," fs

/-- What the ConfigMap task leaves behind: its Result, the ConfigHash stored
into the context (none when it was never computed), the config-hash label on
the persisted ConfigMap (none when nothing was persisted), and the stop
boolean. -/
structure ConfigMapOutcome where
  result : TaskStatusCode
  configHash : Option String
  cmLabelConfigHash : Option String
  stop : Bool
  deriving DecidableEq

/-- Modelled from the spec: the TiKV ConfigMap task (spec section 7,
malformed desired-state input, and the TestTaskConfigMap expectations);
the implementation (tikv tasks cm.go) is not among the sources.  An
unparseable configuration or one setting an operator-managed field yields
Fail before any hash is computed; otherwise the hash is computed and the
ConfigMap is applied with the hash as its config-hash label, a patch error
yielding Fail. -/
def tikvTaskConfigMap (cfg : TiKVConfig) (patchErr : Bool) : ConfigMapOutcome :=
  match cfg with
  | TiKVConfig.unparseable =>
    { result := TaskStatusCode.fail, configHash := none, cmLabelConfigHash := none, stop := false }
  | TiKVConfig.fields fs =>
    match hasManagedField (TiKVConfig.fields fs), patchErr with
    | true, _ =>
      { result := TaskStatusCode.fail, configHash := none, cmLabelConfigHash := none, stop := false }
    | false, true =>
      { result := TaskStatusCode.fail, configHash := some (hashConfig fs),
        cmLabelConfigHash := none, stop := false }
    | false, false =>
      { result := TaskStatusCode.complete, configHash := some (hashConfig fs),
        cmLabelConfigHash := some (hashConfig fs), stop := false }

/-- An empty PD status sub-object (the zero value before any reconciliation). -/
def pdStatusEmpty : PDStatus := ⟨0, "", false, "", "", []⟩

/-- The PD primary object of the test scenarios: generation 3, revision-hash
label "new", empty prior status. -/
def examplePD : PDObj := ⟨3, [(labelKeyInstanceRevisionHash, "new")], pdStatusEmpty⟩

/-- The same PD primary object with a previously persisted currentRevision. -/
def examplePDKeep : PDObj :=
  ⟨3, [(labelKeyInstanceRevisionHash, "new")], ⟨0, "", false, "keep", "", []⟩⟩

/-- The test pod: revision-hash label "old", phase Running, Ready True. -/
def examplePod : Pod :=
  ⟨[(labelKeyInstanceRevisionHash, "old")], podPhaseRunning, [⟨podCondReady, podCondStatusTrue⟩]⟩

/-- PD test scenario "no pod but healthy". -/
def pdCtxNoPod : PDReconcileContext :=
  ⟨examplePDKeep, none, false, false, true, true, true, "aaa-xxx"⟩

/-- PD test scenario "pod is healthy". -/
def pdCtxHealthyPod : PDReconcileContext :=
  ⟨examplePD, some examplePod, false, false, true, true, true, "aaa-xxx"⟩

/-- PD test scenario "pod is deleting". -/
def pdCtxDeleting : PDReconcileContext :=
  ⟨examplePD, some examplePod, true, false, true, true, true, "aaa-xxx"⟩

/-- PD test scenario "not init". -/
def pdCtxNotInit : PDReconcileContext :=
  ⟨examplePD, some examplePod, false, false, true, false, true, "aaa-xxx"⟩

/-- PD test scenario "not init and not healthy". -/
def pdCtxNotInitNotHealthy : PDReconcileContext :=
  ⟨examplePD, some examplePod, false, false, false, false, true, "aaa-xxx"⟩

example : pdTaskStatus pdCtxNoPod 0 false =
    { persisted :=
        { observedGeneration := 3, id := "aaa-xxx", isLeader := true,
          currentRevision := "keep", updateRevision := "new",
          conditions :=
            [⟨condInitialized, ConditionStatus.ctrue, 3, "Initialized", "instance is initialized", 0⟩,
             ⟨condHealth, ConditionStatus.cfalse, 3, "Unhealthy", "instance is not healthy", 0⟩,
             ⟨condSuspended, ConditionStatus.cfalse, 3, "Unsuspended", "instace is not suspended", 0⟩] },
      result := TaskStatusCode.wait, stop := false } := by decide

example : pdTaskStatus pdCtxHealthyPod 0 false =
    { persisted :=
        { observedGeneration := 3, id := "aaa-xxx", isLeader := true,
          currentRevision := "old", updateRevision := "new",
          conditions :=
            [⟨condInitialized, ConditionStatus.ctrue, 3, "Initialized", "instance is initialized", 0⟩,
             ⟨condHealth, ConditionStatus.ctrue, 3, "Healthy", "instance is healthy", 0⟩,
             ⟨condSuspended, ConditionStatus.cfalse, 3, "Unsuspended", "instace is not suspended", 0⟩] },
      result := TaskStatusCode.complete, stop := false } := by decide

example : pdTaskStatus pdCtxDeleting 0 false =
    { persisted :=
        { observedGeneration := 3, id := "aaa-xxx", isLeader := true,
          currentRevision := "", updateRevision := "new",
          conditions :=
            [⟨condInitialized, ConditionStatus.ctrue, 3, "Initialized", "instance is initialized", 0⟩,
             ⟨condHealth, ConditionStatus.cfalse, 3, "Unhealthy", "instance is not healthy", 0⟩,
             ⟨condSuspended, ConditionStatus.cfalse, 3, "Unsuspended", "instace is not suspended", 0⟩] },
      result := TaskStatusCode.retry, stop := false } := by decide

example : pdTaskStatus pdCtxNotInit 0 false =
    { persisted :=
        { observedGeneration := 3, id := "aaa-xxx", isLeader := true,
          currentRevision := "old", updateRevision := "new",
          conditions :=
            [⟨condInitialized, ConditionStatus.cfalse, 3, "Uninitialized", "instance has not been initialized yet", 0⟩,
             ⟨condHealth, ConditionStatus.ctrue, 3, "Healthy", "instance is healthy", 0⟩,
             ⟨condSuspended, ConditionStatus.cfalse, 3, "Unsuspended", "instace is not suspended", 0⟩] },
      result := TaskStatusCode.wait, stop := false } := by decide

example : pdTaskStatus pdCtxNotInitNotHealthy 0 false =
    { persisted :=
        { observedGeneration := 3, id := "aaa-xxx", isLeader := true,
          currentRevision := "", updateRevision := "new",
          conditions :=
            [⟨condInitialized, ConditionStatus.cfalse, 3, "Uninitialized", "instance has not been initialized yet", 0⟩,
             ⟨condHealth, ConditionStatus.cfalse, 3, "Unhealthy", "instance is not healthy", 0⟩,
             ⟨condSuspended, ConditionStatus.cfalse, 3, "Unsuspended", "instace is not suspended", 0⟩] },
      result := TaskStatusCode.wait, stop := false } := by decide

example : (pdTaskStatus pdCtxNotInitNotHealthy 0 true).result = TaskStatusCode.fail := by decide

/-- An empty TiKV status sub-object. -/
def tikvStatusEmpty : TiKVStatus := ⟨0, "", "", "", "", []⟩

/-- The TiKV primary object of the test scenarios: generation 3, revision-hash
label "new", empty prior status. -/
def exampleTiKV : TiKVObj := ⟨3, [(labelKeyInstanceRevisionHash, "new")], tikvStatusEmpty⟩

/-- The same TiKV primary object with a previously persisted currentRevision
and observedGeneration. -/
def exampleTiKVKeep : TiKVObj :=
  ⟨3, [(labelKeyInstanceRevisionHash, "new")], ⟨3, "", "", "keep", "", []⟩⟩

/-- TiKV test scenario "no pod but healthy". -/
def tikvCtxNoPod : TiKVReconcileContext :=
  ⟨exampleTiKVKeep, none, false, false, true, false, some ⟨""⟩, "aaa-xxx", storeStateServing⟩

/-- TiKV test scenario "pod is healthy". -/
def tikvCtxHealthyPod : TiKVReconcileContext :=
  ⟨exampleTiKV, some examplePod, false, false, true, false, some ⟨""⟩, "aaa-xxx", storeStateServing⟩

/-- TiKV test scenario "pod is deleting". -/
def tikvCtxDeleting : TiKVReconcileContext :=
  ⟨exampleTiKV, some examplePod, true, false, true, false, some ⟨""⟩, "aaa-xxx", ""⟩

/-- TiKV test scenario "not serving". -/
def tikvCtxNotServing : TiKVReconcileContext :=
  ⟨exampleTiKV, some examplePod, false, false, true, false, some ⟨""⟩, "aaa-xxx", ""⟩

/-- TiKV test scenario "evicting and pd is avail". -/
def tikvCtxEvicting : TiKVReconcileContext :=
  ⟨exampleTiKV, some examplePod, false, false, true, true, some ⟨""⟩, "aaa-xxx", storeStateServing⟩

/-- TiKV test scenario "pd is avail and no store". -/
def tikvCtxNoStore : TiKVReconcileContext :=
  ⟨exampleTiKV, some examplePod, false, false, true, false, none, "aaa-xxx", ""⟩

example : tikvTaskStatus tikvCtxNoPod 0 false =
    { persisted :=
        { observedGeneration := 3, id := "aaa-xxx", state := storeStateServing,
          currentRevision := "keep", updateRevision := "new",
          conditions :=
            [⟨condHealth, ConditionStatus.cfalse, 3, "Unhealthy", "instance is not healthy", 0⟩,
             ⟨condSuspended, ConditionStatus.cfalse, 3, "Unsuspended", "instace is not suspended", 0⟩,
             ⟨condLeadersEvicted, ConditionStatus.cfalse, 3, "NotEvicted", "leaders are not all evicted", 0⟩] },
      result := TaskStatusCode.wait, stop := false } := by decide

example : tikvTaskStatus tikvCtxHealthyPod 0 false =
    { persisted :=
        { observedGeneration := 3, id := "aaa-xxx", state := storeStateServing,
          currentRevision := "old", updateRevision := "new",
          conditions :=
            [⟨condHealth, ConditionStatus.ctrue, 3, "Healthy", "instance is healthy", 0⟩,
             ⟨condSuspended, ConditionStatus.cfalse, 3, "Unsuspended", "instace is not suspended", 0⟩,
             ⟨condLeadersEvicted, ConditionStatus.cfalse, 3, "NotEvicted", "leaders are not all evicted", 0⟩] },
      result := TaskStatusCode.complete, stop := false } := by decide

example : tikvTaskStatus tikvCtxDeleting 0 false =
    { persisted :=
        { observedGeneration := 3, id := "aaa-xxx", state := "",
          currentRevision := "", updateRevision := "new",
          conditions :=
            [⟨condHealth, ConditionStatus.cfalse, 3, "Unhealthy", "instance is not healthy", 0⟩,
             ⟨condSuspended, ConditionStatus.cfalse, 3, "Unsuspended", "instace is not suspended", 0⟩,
             ⟨condLeadersEvicted, ConditionStatus.cfalse, 3, "NotEvicted", "leaders are not all evicted", 0⟩] },
      result := TaskStatusCode.retry, stop := false } := by decide

example : tikvTaskStatus tikvCtxNotServing 0 false =
    { persisted :=
        { observedGeneration := 3, id := "aaa-xxx", state := "",
          currentRevision := "", updateRevision := "new",
          conditions :=
            [⟨condHealth, ConditionStatus.cfalse, 3, "Unhealthy", "instance is not healthy", 0⟩,
             ⟨condSuspended, ConditionStatus.cfalse, 3, "Unsuspended", "instace is not suspended", 0⟩,
             ⟨condLeadersEvicted, ConditionStatus.cfalse, 3, "NotEvicted", "leaders are not all evicted", 0⟩] },
      result := TaskStatusCode.wait, stop := false } := by decide

example : tikvTaskStatus tikvCtxEvicting 0 false =
    { persisted :=
        { observedGeneration := 3, id := "aaa-xxx", state := storeStateServing,
          currentRevision := "old", updateRevision := "new",
          conditions :=
            [⟨condHealth, ConditionStatus.ctrue, 3, "Healthy", "instance is healthy", 0⟩,
             ⟨condSuspended, ConditionStatus.cfalse, 3, "Unsuspended", "instace is not suspended", 0⟩,
             ⟨condLeadersEvicted, ConditionStatus.ctrue, 3, "Evicted", "all leaders are evicted", 0⟩] },
      result := TaskStatusCode.wait, stop := false } := by decide

example : tikvTaskStatus tikvCtxNoStore 0 false =
    { persisted :=
        { observedGeneration := 3, id := "aaa-xxx", state := "",
          currentRevision := "", updateRevision := "new",
          conditions :=
            [⟨condHealth, ConditionStatus.cfalse, 3, "Unhealthy", "instance is not healthy", 0⟩,
             ⟨condSuspended, ConditionStatus.cfalse, 3, "Unsuspended", "instace is not suspended", 0⟩,
             ⟨condLeadersEvicted, ConditionStatus.ctrue, 3, "StoreIsRemoved", "store does not exist", 0⟩] },
      result := TaskStatusCode.wait, stop := false } := by decide

example : (tikvTaskStatus tikvCtxDeleting 0 true).result = TaskStatusCode.fail := by decide

theorem setCond_ctype (old : List Condition) (gen : Int) (now : Nat) (s : CondSpec) :
    (setCond old gen now s).ctype = s.ctype := by
  unfold setCond
  rcases findCond old s.ctype with _ | o
  · rfl
  · by_cases h : o.status = s.status <;> simp [h]

theorem setCond_status (old : List Condition) (gen : Int) (now : Nat) (s : CondSpec) :
    (setCond old gen now s).status = s.status := by
  unfold setCond
  rcases findCond old s.ctype with _ | o
  · rfl
  · by_cases h : o.status = s.status <;> simp [h]

theorem setCond_reason (old : List Condition) (gen : Int) (now : Nat) (s : CondSpec) :
    (setCond old gen now s).reason = s.reason := by
  unfold setCond
  rcases findCond old s.ctype with _ | o
  · rfl
  · by_cases h : o.status = s.status <;> simp [h]

theorem setCond_fields (old : List Condition) (gen : Int) (now : Nat) (s : CondSpec) :
    setCond old gen now s =
      ⟨s.ctype, s.status, gen, s.reason, s.message, (setCond old gen now s).lastTransitionTime⟩ := by
  unfold setCond
  rcases findCond old s.ctype with _ | o
  · rfl
  · by_cases h : o.status = s.status <;> simp [h]

/-- Re-merging a condition that was itself just produced by the merge changes
nothing: the second merge finds the first merge's output, sees an unchanged
status, and keeps its lastTransitionTime. -/
theorem setCond_restable (old latest : List Condition) (gen : Int) (n1 n2 : Nat) (s : CondSpec)
    (h : findCond latest s.ctype = some (setCond old gen n1 s)) :
    setCond latest gen n2 s = setCond old gen n1 s := by
  conv_lhs => unfold setCond
  rw [h]
  show (if (setCond old gen n1 s).status = s.status then
          ({ ctype := s.ctype, status := s.status, observedGeneration := gen, reason := s.reason,
             message := s.message,
             lastTransitionTime := (setCond old gen n1 s).lastTransitionTime } : Condition)
        else
          { ctype := s.ctype, status := s.status, observedGeneration := gen, reason := s.reason,
            message := s.message, lastTransitionTime := n2 }) = setCond old gen n1 s
  rw [setCond_status, if_pos rfl]
  exact (setCond_fields old gen n1 s).symm

theorem pd_find_init (old : List Condition) (gen : Int) (now : Nat) (b1 b2 b3 : Bool) :
    findCond (pdNewConds old gen now b1 b2 b3) condInitialized =
      some (setCond old gen now (initializedSpec b1)) := by
  simp [pdNewConds, findCond, List.find?, setCond_ctype, initializedSpec, healthSpec,
    suspendedSpec, condInitialized, condHealth, condSuspended]

theorem pd_find_health (old : List Condition) (gen : Int) (now : Nat) (b1 b2 b3 : Bool) :
    findCond (pdNewConds old gen now b1 b2 b3) condHealth =
      some (setCond old gen now (healthSpec b2)) := by
  simp [pdNewConds, findCond, List.find?, setCond_ctype, initializedSpec, healthSpec,
    suspendedSpec, condInitialized, condHealth, condSuspended]

theorem pd_find_susp (old : List Condition) (gen : Int) (now : Nat) (b1 b2 b3 : Bool) :
    findCond (pdNewConds old gen now b1 b2 b3) condSuspended =
      some (setCond old gen now (suspendedSpec b3)) := by
  simp [pdNewConds, findCond, List.find?, setCond_ctype, initializedSpec, healthSpec,
    suspendedSpec, condInitialized, condHealth, condSuspended]

/-- Merging the same computed PD conditions a second time reproduces the
first merge's output exactly, lastTransitionTimes included. -/
theorem pd_conds_idem (old : List Condition) (gen : Int) (n1 n2 : Nat) (b1 b2 b3 : Bool) :
    pdNewConds (pdNewConds old gen n1 b1 b2 b3) gen n2 b1 b2 b3 =
      pdNewConds old gen n1 b1 b2 b3 := by
  have h1 := setCond_restable old (pdNewConds old gen n1 b1 b2 b3) gen n1 n2
    (initializedSpec b1) (pd_find_init old gen n1 b1 b2 b3)
  have h2 := setCond_restable old (pdNewConds old gen n1 b1 b2 b3) gen n1 n2
    (healthSpec b2) (pd_find_health old gen n1 b1 b2 b3)
  have h3 := setCond_restable old (pdNewConds old gen n1 b1 b2 b3) gen n1 n2
    (suspendedSpec b3) (pd_find_susp old gen n1 b1 b2 b3)
  show [setCond (pdNewConds old gen n1 b1 b2 b3) gen n2 (initializedSpec b1),
        setCond (pdNewConds old gen n1 b1 b2 b3) gen n2 (healthSpec b2),
        setCond (pdNewConds old gen n1 b1 b2 b3) gen n2 (suspendedSpec b3)] =
      pdNewConds old gen n1 b1 b2 b3
  rw [h1, h2, h3]
  rfl

theorem tikv_find_health (old : List Condition) (gen : Int) (now : Nat)
    (b1 b2 b3 b4 : Bool) (st : Option Store) :
    findCond (tikvNewConds old gen now b1 b2 b3 b4 st) condHealth =
      some (setCond old gen now (healthSpec b1)) := by
  simp [tikvNewConds, findCond, List.find?, setCond_ctype, healthSpec, suspendedSpec,
    leadersEvictedSpec, condHealth, condSuspended, condLeadersEvicted]

theorem tikv_find_susp (old : List Condition) (gen : Int) (now : Nat)
    (b1 b2 b3 b4 : Bool) (st : Option Store) :
    findCond (tikvNewConds old gen now b1 b2 b3 b4 st) condSuspended =
      some (setCond old gen now (suspendedSpec b2)) := by
  simp [tikvNewConds, findCond, List.find?, setCond_ctype, healthSpec, suspendedSpec,
    leadersEvictedSpec, condHealth, condSuspended, condLeadersEvicted]

theorem tikv_find_evicted (old : List Condition) (gen : Int) (now : Nat)
    (b1 b2 b3 b4 : Bool) (st : Option Store) :
    findCond (tikvNewConds old gen now b1 b2 b3 b4 st) condLeadersEvicted =
      some (setCond old gen now (leadersEvictedSpec b3 b4 st)) := by
  simp [tikvNewConds, findCond, List.find?, setCond_ctype, healthSpec, suspendedSpec,
    leadersEvictedSpec, condHealth, condSuspended, condLeadersEvicted]

/-- Merging the same computed TiKV conditions a second time reproduces the
first merge's output exactly, lastTransitionTimes included. -/
theorem tikv_conds_idem (old : List Condition) (gen : Int) (n1 n2 : Nat)
    (b1 b2 b3 b4 : Bool) (st : Option Store) :
    tikvNewConds (tikvNewConds old gen n1 b1 b2 b3 b4 st) gen n2 b1 b2 b3 b4 st =
      tikvNewConds old gen n1 b1 b2 b3 b4 st := by
  have h1 := setCond_restable old (tikvNewConds old gen n1 b1 b2 b3 b4 st) gen n1 n2
    (healthSpec b1) (tikv_find_health old gen n1 b1 b2 b3 b4 st)
  have h2 := setCond_restable old (tikvNewConds old gen n1 b1 b2 b3 b4 st) gen n1 n2
    (suspendedSpec b2) (tikv_find_susp old gen n1 b1 b2 b3 b4 st)
  have h3 := setCond_restable old (tikvNewConds old gen n1 b1 b2 b3 b4 st) gen n1 n2
    (leadersEvictedSpec b3 b4 st) (tikv_find_evicted old gen n1 b1 b2 b3 b4 st)
  show [setCond (tikvNewConds old gen n1 b1 b2 b3 b4 st) gen n2 (healthSpec b1),
        setCond (tikvNewConds old gen n1 b1 b2 b3 b4 st) gen n2 (suspendedSpec b2),
        setCond (tikvNewConds old gen n1 b1 b2 b3 b4 st) gen n2 (leadersEvictedSpec b3 b4 st)] =
      tikvNewConds old gen n1 b1 b2 b3 b4 st
  rw [h1, h2, h3]
  rfl

/-- The same reconcile context, re-entered after the previous run persisted
its status: the primary object now carries status `s`, all other
observations unchanged. -/
def pdWithStatus (rc : PDReconcileContext) (s : PDStatus) : PDReconcileContext :=
  { rc with pd := { rc.pd with status := s } }

/-- The TiKV analogue of `pdWithStatus`. -/
def tikvWithStatus (rc : TiKVReconcileContext) (s : TiKVStatus) : TiKVReconcileContext :=
  { rc with tikv := { rc.tikv with status := s } }

/-- Running the PD status task a second time over its own persisted output,
with all other inputs unchanged, changes nothing: same persisted bytes
(timestamps included) and same Result. -/
theorem pd_task_idem (rc : PDReconcileContext) (n1 n2 : Nat) :
    pdTaskStatus (pdWithStatus rc (pdTaskStatus rc n1 false).persisted) n2 false =
      pdTaskStatus rc n1 false := by
  have hconds := pd_conds_idem rc.pd.status.conditions rc.pd.generation n1 n2
    rc.initialized (pdHealth rc) rc.suspended
  show TaskOutcome.mk (pdDeriveStatus (pdWithStatus rc (pdDeriveStatus rc n1)) n2)
        (pdResult (pdWithStatus rc (pdDeriveStatus rc n1))) false =
      TaskOutcome.mk (pdDeriveStatus rc n1) (pdResult rc) false
  have hres : pdResult (pdWithStatus rc (pdDeriveStatus rc n1)) = pdResult rc := rfl
  rw [hres]
  have hst : pdDeriveStatus (pdWithStatus rc (pdDeriveStatus rc n1)) n2 = pdDeriveStatus rc n1 := by
    show PDStatus.mk rc.pd.generation rc.memberID rc.isLeader
        (if pdHealth rc = true then podRevisionHash rc.pod
         else (if pdHealth rc = true then podRevisionHash rc.pod else rc.pd.status.currentRevision))
        (getLabel rc.pd.labels labelKeyInstanceRevisionHash)
        (pdNewConds
          (pdNewConds rc.pd.status.conditions rc.pd.generation n1 rc.initialized (pdHealth rc) rc.suspended)
          rc.pd.generation n2 rc.initialized (pdHealth rc) rc.suspended) =
      PDStatus.mk rc.pd.generation rc.memberID rc.isLeader
        (if pdHealth rc = true then podRevisionHash rc.pod else rc.pd.status.currentRevision)
        (getLabel rc.pd.labels labelKeyInstanceRevisionHash)
        (pdNewConds rc.pd.status.conditions rc.pd.generation n1 rc.initialized (pdHealth rc) rc.suspended)
    rw [hconds]
    by_cases h : pdHealth rc = true <;> simp [h]
  rw [hst]

/-- Running the TiKV status task a second time over its own persisted output,
with all other inputs unchanged, changes nothing. -/
theorem tikv_task_idem (rc : TiKVReconcileContext) (n1 n2 : Nat) :
    tikvTaskStatus (tikvWithStatus rc (tikvTaskStatus rc n1 false).persisted) n2 false =
      tikvTaskStatus rc n1 false := by
  have hconds := tikv_conds_idem rc.tikv.status.conditions rc.tikv.generation n1 n2
    (tikvHealth rc) rc.suspended rc.isPDAvailable rc.leaderEvicting rc.store
  show TaskOutcome.mk (tikvDeriveStatus (tikvWithStatus rc (tikvDeriveStatus rc n1)) n2)
        (tikvResult (tikvWithStatus rc (tikvDeriveStatus rc n1))) false =
      TaskOutcome.mk (tikvDeriveStatus rc n1) (tikvResult rc) false
  have hres : tikvResult (tikvWithStatus rc (tikvDeriveStatus rc n1)) = tikvResult rc := rfl
  rw [hres]
  have hst : tikvDeriveStatus (tikvWithStatus rc (tikvDeriveStatus rc n1)) n2 =
      tikvDeriveStatus rc n1 := by
    show TiKVStatus.mk rc.tikv.generation
        (if rc.isPDAvailable = true then rc.storeID
         else (if rc.isPDAvailable = true then rc.storeID else rc.tikv.status.id))
        (if rc.isPDAvailable = true then rc.storeState
         else (if rc.isPDAvailable = true then rc.storeState else rc.tikv.status.state))
        (if tikvHealth rc = true then podRevisionHash rc.pod
         else (if tikvHealth rc = true then podRevisionHash rc.pod else rc.tikv.status.currentRevision))
        (getLabel rc.tikv.labels labelKeyInstanceRevisionHash)
        (tikvNewConds
          (tikvNewConds rc.tikv.status.conditions rc.tikv.generation n1
            (tikvHealth rc) rc.suspended rc.isPDAvailable rc.leaderEvicting rc.store)
          rc.tikv.generation n2 (tikvHealth rc) rc.suspended rc.isPDAvailable rc.leaderEvicting rc.store) =
      TiKVStatus.mk rc.tikv.generation
        (if rc.isPDAvailable = true then rc.storeID else rc.tikv.status.id)
        (if rc.isPDAvailable = true then rc.storeState else rc.tikv.status.state)
        (if tikvHealth rc = true then podRevisionHash rc.pod else rc.tikv.status.currentRevision)
        (getLabel rc.tikv.labels labelKeyInstanceRevisionHash)
        (tikvNewConds rc.tikv.status.conditions rc.tikv.generation n1
          (tikvHealth rc) rc.suspended rc.isPDAvailable rc.leaderEvicting rc.store)
    rw [hconds]
    by_cases h1 : rc.isPDAvailable = true <;> by_cases h2 : tikvHealth rc = true <;> simp [h1, h2]
  rw [hst]

theorem pd_health_cond_status (rc : PDReconcileContext) (now : Nat) :
    condStatusOf (pdDeriveStatus rc now).conditions condHealth =
      some (if pdHealth rc = true then ConditionStatus.ctrue else ConditionStatus.cfalse) := by
  have hc : (pdDeriveStatus rc now).conditions =
      pdNewConds rc.pd.status.conditions rc.pd.generation now
        rc.initialized (pdHealth rc) rc.suspended := rfl
  unfold condStatusOf
  rw [hc, pd_find_health]
  simp [setCond_status, healthSpec]

theorem pd_health_cond_reason (rc : PDReconcileContext) (now : Nat) :
    condReasonOf (pdDeriveStatus rc now).conditions condHealth =
      some (if pdHealth rc = true then "Healthy" else "Unhealthy") := by
  have hc : (pdDeriveStatus rc now).conditions =
      pdNewConds rc.pd.status.conditions rc.pd.generation now
        rc.initialized (pdHealth rc) rc.suspended := rfl
  unfold condReasonOf
  rw [hc, pd_find_health]
  simp [setCond_reason, healthSpec]

theorem tikv_health_cond_status (rc : TiKVReconcileContext) (now : Nat) :
    condStatusOf (tikvDeriveStatus rc now).conditions condHealth =
      some (if tikvHealth rc = true then ConditionStatus.ctrue else ConditionStatus.cfalse) := by
  have hc : (tikvDeriveStatus rc now).conditions =
      tikvNewConds rc.tikv.status.conditions rc.tikv.generation now
        (tikvHealth rc) rc.suspended rc.isPDAvailable rc.leaderEvicting rc.store := rfl
  unfold condStatusOf
  rw [hc, tikv_find_health]
  simp [setCond_status, healthSpec]

theorem tikv_health_cond_reason (rc : TiKVReconcileContext) (now : Nat) :
    condReasonOf (tikvDeriveStatus rc now).conditions condHealth =
      some (if tikvHealth rc = true then "Healthy" else "Unhealthy") := by
  have hc : (tikvDeriveStatus rc now).conditions =
      tikvNewConds rc.tikv.status.conditions rc.tikv.generation now
        (tikvHealth rc) rc.suspended rc.isPDAvailable rc.leaderEvicting rc.store := rfl
  unfold condReasonOf
  rw [hc, tikv_find_health]
  simp [setCond_reason, healthSpec]

theorem tikv_evicted_cond_status (rc : TiKVReconcileContext) (now : Nat) :
    condStatusOf (tikvDeriveStatus rc now).conditions condLeadersEvicted =
      some (leadersEvictedFields rc.isPDAvailable rc.leaderEvicting rc.store).fst := by
  have hc : (tikvDeriveStatus rc now).conditions =
      tikvNewConds rc.tikv.status.conditions rc.tikv.generation now
        (tikvHealth rc) rc.suspended rc.isPDAvailable rc.leaderEvicting rc.store := rfl
  unfold condStatusOf
  rw [hc, tikv_find_evicted]
  simp [setCond_status, leadersEvictedSpec]

theorem tikv_evicted_cond_reason (rc : TiKVReconcileContext) (now : Nat) :
    condReasonOf (tikvDeriveStatus rc now).conditions condLeadersEvicted =
      some (leadersEvictedFields rc.isPDAvailable rc.leaderEvicting rc.store).snd.fst := by
  have hc : (tikvDeriveStatus rc now).conditions =
      tikvNewConds rc.tikv.status.conditions rc.tikv.generation now
        (tikvHealth rc) rc.suspended rc.isPDAvailable rc.leaderEvicting rc.store := rfl
  unfold condReasonOf
  rw [hc, tikv_find_evicted]
  simp [setCond_reason, leadersEvictedSpec]

theorem hashConfig_ne_empty (fs : List String) : hashConfig fs ≠ "" := by
  intro h
  have hlen := congrArg String.length h
  rw [hashConfig] at hlen
  simp [String.length_append] at hlen
  exact absurd hlen.left (by decide)

/-- Claim C1: fail-closed health.  For every input to the PD and TiKV
status-derivation tasks, the persisted Health condition is True with
reason Healthy exactly when the pod exists and is running and ready, is
not marked terminating, and the external liveness signal holds (the PD
healthy flag, respectively the TiKV store serving state); in every other
combination — pod absent, not Running, not Ready, terminating, or signal
false/absent — it is False with reason Unhealthy. -/
theorem c1_fail_closed_health (rc : PDReconcileContext) (rk : TiKVReconcileContext) (n m : Nat) :
    (condStatusOf (pdTaskStatus rc n false).persisted.conditions condHealth =
       some (if (podRunningAndReady rc.pod && !rc.podIsTerminating && rc.healthy) = true
         then ConditionStatus.ctrue else ConditionStatus.cfalse) ∧
     condReasonOf (pdTaskStatus rc n false).persisted.conditions condHealth =
       some (if (podRunningAndReady rc.pod && !rc.podIsTerminating && rc.healthy) = true
         then "Healthy" else "Unhealthy")) ∧
    (condStatusOf (tikvTaskStatus rk m false).persisted.conditions condHealth =
       some (if (podRunningAndReady rk.pod && !rk.podIsTerminating &&
           decide (rk.storeState = storeStateServing)) = true
         then ConditionStatus.ctrue else ConditionStatus.cfalse) ∧
     condReasonOf (tikvTaskStatus rk m false).persisted.conditions condHealth =
       some (if (podRunningAndReady rk.pod && !rk.podIsTerminating &&
           decide (rk.storeState = storeStateServing)) = true
         then "Healthy" else "Unhealthy")) :=
  ⟨⟨pd_health_cond_status rc n, pd_health_cond_reason rc n⟩,
   ⟨tikv_health_cond_status rk m, tikv_health_cond_reason rk m⟩⟩

theorem pd_revision_frame (rc : PDReconcileContext) (n : Nat) (e : Bool) :
    (rc.pod = none ∨ rc.podIsTerminating = true ∨ podRunningAndReady rc.pod = false →
       (pdTaskStatus rc n e).persisted.currentRevision = rc.pd.status.currentRevision) ∧
    ((pdTaskStatus rc n e).persisted.currentRevision ≠ rc.pd.status.currentRevision →
       ∃ p, rc.pod = some p ∧ isPodRunningAndReady p = true ∧ rc.podIsTerminating = false ∧
         (pdTaskStatus rc n e).persisted.currentRevision =
           getLabel p.labels labelKeyInstanceRevisionHash) := by
  cases e with
  | true => exact ⟨fun _ => rfl, fun hne => absurd rfl hne⟩
  | false =>
    have hval : (pdTaskStatus rc n false).persisted.currentRevision =
        (if pdHealth rc = true then podRevisionHash rc.pod else rc.pd.status.currentRevision) := rfl
    constructor
    · intro hdisj
      have hh : pdHealth rc = false := by
        rcases hdisj with hp | ht | hr
        · simp [pdHealth, podRunningAndReady, hp]
        · simp [pdHealth, ht]
        · simp [pdHealth, hr]
      rw [hval, hh]
      simp
    · intro hne
      by_cases hh : pdHealth rc = true
      · have hh2 := hh
        unfold pdHealth at hh2
        rw [Bool.and_eq_true, Bool.and_eq_true] at hh2
        rcases hh2 with ⟨⟨h1, h2b⟩, hc⟩
        have h2 : rc.podIsTerminating = false := by
          revert h2b
          cases rc.podIsTerminating <;> simp
        rcases hp : rc.pod with _ | p
        · rw [hp] at h1
          simp [podRunningAndReady] at h1
        · refine ⟨p, rfl, ?_, h2, ?_⟩
          · rw [hp] at h1
            simpa [podRunningAndReady] using h1
          · rw [hval, if_pos hh, hp]
            rfl
      · have hkeep : (pdTaskStatus rc n false).persisted.currentRevision =
            rc.pd.status.currentRevision := by
          rw [hval, if_neg hh]
        exact absurd hkeep hne

theorem tikv_revision_frame (rc : TiKVReconcileContext) (n : Nat) (e : Bool) :
    (rc.pod = none ∨ rc.podIsTerminating = true ∨ podRunningAndReady rc.pod = false →
       (tikvTaskStatus rc n e).persisted.currentRevision = rc.tikv.status.currentRevision) ∧
    ((tikvTaskStatus rc n e).persisted.currentRevision ≠ rc.tikv.status.currentRevision →
       ∃ p, rc.pod = some p ∧ isPodRunningAndReady p = true ∧ rc.podIsTerminating = false ∧
         (tikvTaskStatus rc n e).persisted.currentRevision =
           getLabel p.labels labelKeyInstanceRevisionHash) := by
  cases e with
  | true => exact ⟨fun _ => rfl, fun hne => absurd rfl hne⟩
  | false =>
    have hval : (tikvTaskStatus rc n false).persisted.currentRevision =
        (if tikvHealth rc = true then podRevisionHash rc.pod
         else rc.tikv.status.currentRevision) := rfl
    constructor
    · intro hdisj
      have hh : tikvHealth rc = false := by
        rcases hdisj with hp | ht | hr
        · simp [tikvHealth, podRunningAndReady, hp]
        · simp [tikvHealth, ht]
        · simp [tikvHealth, hr]
      rw [hval, hh]
      simp
    · intro hne
      by_cases hh : tikvHealth rc = true
      · have hh2 := hh
        unfold tikvHealth at hh2
        rw [Bool.and_eq_true, Bool.and_eq_true] at hh2
        rcases hh2 with ⟨⟨h1, h2b⟩, hc⟩
        have h2 : rc.podIsTerminating = false := by
          revert h2b
          cases rc.podIsTerminating <;> simp
        rcases hp : rc.pod with _ | p
        · rw [hp] at h1
          simp [podRunningAndReady] at h1
        · refine ⟨p, rfl, ?_, h2, ?_⟩
          · rw [hp] at h1
            simpa [podRunningAndReady] using h1
          · rw [hval, if_pos hh, hp]
            rfl
      · have hkeep : (tikvTaskStatus rc n false).persisted.currentRevision =
            rc.tikv.status.currentRevision := by
          rw [hval, if_neg hh]
        exact absurd hkeep hne

/-- Claim C2: monotonic revision advance.  A call of the PD or TiKV status
task changes the persisted currentRevision only to the pod's own
revision-hash label and only when the pod is present, running and ready,
and not marked terminating; whenever the pod is absent, terminating, or
not ready, the previously persisted currentRevision is left unchanged. -/
theorem c2_monotonic_revision (rc : PDReconcileContext) (rk : TiKVReconcileContext)
    (n m : Nat) (e1 e2 : Bool) :
    ((rc.pod = none ∨ rc.podIsTerminating = true ∨ podRunningAndReady rc.pod = false →
        (pdTaskStatus rc n e1).persisted.currentRevision = rc.pd.status.currentRevision) ∧
     ((pdTaskStatus rc n e1).persisted.currentRevision ≠ rc.pd.status.currentRevision →
        ∃ p, rc.pod = some p ∧ isPodRunningAndReady p = true ∧ rc.podIsTerminating = false ∧
          (pdTaskStatus rc n e1).persisted.currentRevision =
            getLabel p.labels labelKeyInstanceRevisionHash)) ∧
    ((rk.pod = none ∨ rk.podIsTerminating = true ∨ podRunningAndReady rk.pod = false →
        (tikvTaskStatus rk m e2).persisted.currentRevision = rk.tikv.status.currentRevision) ∧
     ((tikvTaskStatus rk m e2).persisted.currentRevision ≠ rk.tikv.status.currentRevision →
        ∃ p, rk.pod = some p ∧ isPodRunningAndReady p = true ∧ rk.podIsTerminating = false ∧
          (tikvTaskStatus rk m e2).persisted.currentRevision =
            getLabel p.labels labelKeyInstanceRevisionHash)) :=
  ⟨pd_revision_frame rc n e1, tikv_revision_frame rk m e2⟩

/-- Claim C2 witness: in the "no pod but healthy" scenarios the previously
persisted currentRevision "keep" survives the call. -/
theorem c2_monotonic_revision_witness :
    (pdTaskStatus pdCtxNoPod 0 false).persisted.currentRevision = "keep" ∧
    (tikvTaskStatus tikvCtxNoPod 0 false).persisted.currentRevision = "keep" := by
  constructor
  · have h := (c2_monotonic_revision pdCtxNoPod tikvCtxNoPod 0 0 false false).left.left
      (Or.inl rfl)
    exact h.trans (by decide)
  · have h := (c2_monotonic_revision pdCtxNoPod tikvCtxNoPod 0 0 false false).right.left
      (Or.inl rfl)
    exact h.trans (by decide)

/-- Claim C3: idempotence of status derivation.  Running the PD or TiKV
status task a second time over its own persisted output, with every other
input unchanged and at an arbitrary later time, yields an identical
persisted status (every condition's lastTransitionTime included) and the
same Result and stop values. -/
theorem c3_status_idempotence (rc : PDReconcileContext) (rk : TiKVReconcileContext)
    (n1 n2 m1 m2 : Nat) :
    pdTaskStatus (pdWithStatus rc (pdTaskStatus rc n1 false).persisted) n2 false =
      pdTaskStatus rc n1 false ∧
    tikvTaskStatus (tikvWithStatus rk (tikvTaskStatus rk m1 false).persisted) m2 false =
      tikvTaskStatus rk m1 false :=
  ⟨pd_task_idem rc n1 n2, tikv_task_idem rk m1 m2⟩

/-- Claim C4: condition order stability.  Every call of the PD status task
persists its conditions in the fixed order Initialized, Health, Suspended,
and every call of the TiKV status task in the fixed order Health,
Suspended, LeadersEvicted, regardless of the inputs — hence any two calls
for the same component type agree on the order. -/
theorem c4_condition_order (rc : PDReconcileContext) (rk : TiKVReconcileContext) (n m : Nat) :
    (pdTaskStatus rc n false).persisted.conditions.map Condition.ctype =
      [condInitialized, condHealth, condSuspended] ∧
    (tikvTaskStatus rk m false).persisted.conditions.map Condition.ctype =
      [condHealth, condSuspended, condLeadersEvicted] := by
  constructor
  · show (pdNewConds rc.pd.status.conditions rc.pd.generation n
        rc.initialized (pdHealth rc) rc.suspended).map Condition.ctype = _
    simp [pdNewConds, setCond_ctype, initializedSpec, healthSpec, suspendedSpec]
  · show (tikvNewConds rk.tikv.status.conditions rk.tikv.generation m
        (tikvHealth rk) rk.suspended rk.isPDAvailable rk.leaderEvicting rk.store).map
        Condition.ctype = _
    simp [tikvNewConds, setCond_ctype, healthSpec, suspendedSpec, leadersEvictedSpec]

/-- Claim C5: Result decision of the PD status task.  After the status
write, the task returns Retry when the pod is marked terminating, Wait
when the instance is not yet healthy or not yet initialized, and Complete
otherwise; in particular a terminating pod always yields Retry together
with a False Health condition and an unchanged currentRevision. -/
theorem c5_result_decision (rc : PDReconcileContext) (n : Nat) :
    (pdTaskStatus rc n false).result =
      (if rc.podIsTerminating = true then TaskStatusCode.retry
       else if (pdHealth rc && rc.initialized) = false then TaskStatusCode.wait
       else TaskStatusCode.complete) ∧
    (rc.podIsTerminating = true →
      (pdTaskStatus rc n false).result = TaskStatusCode.retry ∧
      condStatusOf (pdTaskStatus rc n false).persisted.conditions condHealth =
        some ConditionStatus.cfalse ∧
      (pdTaskStatus rc n false).persisted.currentRevision = rc.pd.status.currentRevision) := by
  constructor
  · rfl
  · intro ht
    have hh : pdHealth rc = false := by simp [pdHealth, ht]
    refine ⟨?_, ?_, ?_⟩
    · show pdResult rc = TaskStatusCode.retry
      rw [pdResult, if_pos ht]
    · have hs := pd_health_cond_status rc n
      rw [hh] at hs
      simpa using hs
    · show (if pdHealth rc = true then podRevisionHash rc.pod
          else rc.pd.status.currentRevision) = rc.pd.status.currentRevision
      rw [hh]
      simp

/-- Claim C5 witness: the "pod is deleting" scenario returns Retry with a
False Health condition and keeps the prior currentRevision. -/
theorem c5_result_decision_witness :
    (pdTaskStatus pdCtxDeleting 0 false).result = TaskStatusCode.retry ∧
    condStatusOf (pdTaskStatus pdCtxDeleting 0 false).persisted.conditions condHealth =
      some ConditionStatus.cfalse ∧
    (pdTaskStatus pdCtxDeleting 0 false).persisted.currentRevision =
      pdCtxDeleting.pd.status.currentRevision :=
  (c5_result_decision pdCtxDeleting 0).right rfl

/-- Claim C6: healthy-pod scenario.  With generation 3, primary revision
label "new", a Running and Ready pod labelled "old", and the external
signal healthy, both the PD and the TiKV status tasks persist Health=True
(reason Healthy), currentRevision "old", updateRevision "new",
observedGeneration 3, and return Complete. -/
theorem c6_healthy_pod_scenario :
    (pdTaskStatus pdCtxHealthyPod 0 false).persisted.observedGeneration = 3 ∧
    (pdTaskStatus pdCtxHealthyPod 0 false).persisted.currentRevision = "old" ∧
    (pdTaskStatus pdCtxHealthyPod 0 false).persisted.updateRevision = "new" ∧
    condStatusOf (pdTaskStatus pdCtxHealthyPod 0 false).persisted.conditions condHealth =
      some ConditionStatus.ctrue ∧
    condReasonOf (pdTaskStatus pdCtxHealthyPod 0 false).persisted.conditions condHealth =
      some "Healthy" ∧
    (pdTaskStatus pdCtxHealthyPod 0 false).result = TaskStatusCode.complete ∧
    (tikvTaskStatus tikvCtxHealthyPod 0 false).persisted.observedGeneration = 3 ∧
    (tikvTaskStatus tikvCtxHealthyPod 0 false).persisted.currentRevision = "old" ∧
    (tikvTaskStatus tikvCtxHealthyPod 0 false).persisted.updateRevision = "new" ∧
    condStatusOf (tikvTaskStatus tikvCtxHealthyPod 0 false).persisted.conditions condHealth =
      some ConditionStatus.ctrue ∧
    condReasonOf (tikvTaskStatus tikvCtxHealthyPod 0 false).persisted.conditions condHealth =
      some "Healthy" ∧
    (tikvTaskStatus tikvCtxHealthyPod 0 false).result = TaskStatusCode.complete := by
  decide

/-- Claim C7: persistence failure handling.  Whenever the single
conditional status update fails, the PD and TiKV status tasks return
Fail, leave the persisted status untouched (no local retry of the write),
and report stop = false. -/
theorem c7_persist_failure (rc : PDReconcileContext) (rk : TiKVReconcileContext) (n m : Nat) :
    ((pdTaskStatus rc n true).result = TaskStatusCode.fail ∧
     (pdTaskStatus rc n true).stop = false ∧
     (pdTaskStatus rc n true).persisted = rc.pd.status) ∧
    ((tikvTaskStatus rk m true).result = TaskStatusCode.fail ∧
     (tikvTaskStatus rk m true).stop = false ∧
     (tikvTaskStatus rk m true).persisted = rk.tikv.status) :=
  ⟨⟨rfl, rfl, rfl⟩, ⟨rfl, rfl, rfl⟩⟩

/-- Claim C8: leader-eviction condition rule of the TiKV status task.
When PD is available and the store no longer exists, LeadersEvicted is
persisted True with reason StoreIsRemoved; when eviction is requested but
PD is unavailable, it is persisted False (not yet evicted). -/
theorem c8_leaders_evicted_rule (rk : TiKVReconcileContext) (m : Nat) :
    (rk.isPDAvailable = true → rk.store = none →
      condStatusOf (tikvTaskStatus rk m false).persisted.conditions condLeadersEvicted =
        some ConditionStatus.ctrue ∧
      condReasonOf (tikvTaskStatus rk m false).persisted.conditions condLeadersEvicted =
        some "StoreIsRemoved") ∧
    (rk.leaderEvicting = true → rk.isPDAvailable = false →
      condStatusOf (tikvTaskStatus rk m false).persisted.conditions condLeadersEvicted =
        some ConditionStatus.cfalse ∧
      condReasonOf (tikvTaskStatus rk m false).persisted.conditions condLeadersEvicted =
        some "NotEvicted") := by
  constructor
  · intro ha hs
    have h1 := tikv_evicted_cond_status rk m
    have h2 := tikv_evicted_cond_reason rk m
    rw [ha, hs] at h1 h2
    exact ⟨h1.trans (by simp [leadersEvictedFields]), h2.trans (by simp [leadersEvictedFields])⟩
  · intro he ha
    have h1 := tikv_evicted_cond_status rk m
    have h2 := tikv_evicted_cond_reason rk m
    rw [ha] at h1 h2
    exact ⟨h1.trans (by simp [leadersEvictedFields]), h2.trans (by simp [leadersEvictedFields])⟩

/-- The TiKV context of the eviction-requested, PD-unavailable situation. -/
def tikvCtxEvictingNoPD : TiKVReconcileContext :=
  ⟨exampleTiKV, some examplePod, false, false, false, true, some ⟨""⟩, "aaa-xxx", storeStateServing⟩

/-- Claim C8 witness: the "pd is avail and no store" scenario persists
LeadersEvicted True / StoreIsRemoved, and an eviction request with PD
unavailable persists LeadersEvicted False. -/
theorem c8_leaders_evicted_rule_witness :
    (condStatusOf (tikvTaskStatus tikvCtxNoStore 0 false).persisted.conditions
        condLeadersEvicted = some ConditionStatus.ctrue ∧
     condReasonOf (tikvTaskStatus tikvCtxNoStore 0 false).persisted.conditions
        condLeadersEvicted = some "StoreIsRemoved") ∧
    (condStatusOf (tikvTaskStatus tikvCtxEvictingNoPD 0 false).persisted.conditions
        condLeadersEvicted = some ConditionStatus.cfalse ∧
     condReasonOf (tikvTaskStatus tikvCtxEvictingNoPD 0 false).persisted.conditions
        condLeadersEvicted = some "NotEvicted") :=
  ⟨(c8_leaders_evicted_rule tikvCtxNoStore 0).left rfl rfl,
   (c8_leaders_evicted_rule tikvCtxEvictingNoPD 0).right rfl rfl⟩

/-- Claim C9 counterexample: when PVC synchronization must still wait, the
PVC task's Result is neither Wait nor Retry — the source returns Complete
with a waiting message — refuting the claim at this concrete input. -/
theorem c9_pvc_wait_counterexample :
    ¬((taskPVC SyncPVCsOutcome.waiting).fst = TaskStatusCode.wait ∨
      (taskPVC SyncPVCsOutcome.waiting).fst = TaskStatusCode.retry) := by
  decide

/-- Claim C9 (amended): the PVC task surfaces the transient
still-waiting PVC situation as Complete (with the message "waiting for
pvcs to be synced"), never as Fail; Fail arises only from a sync error. -/
theorem c9_pvc_amended :
    (taskPVC SyncPVCsOutcome.waiting).fst = TaskStatusCode.complete ∧
    (taskPVC SyncPVCsOutcome.waiting).snd = "waiting for pvcs to be synced" ∧
    (taskPVC SyncPVCsOutcome.waiting).fst ≠ TaskStatusCode.fail ∧
    (taskPVC SyncPVCsOutcome.synced).fst = TaskStatusCode.complete ∧
    (taskPVC SyncPVCsOutcome.err).fst = TaskStatusCode.fail := by
  decide

/-- Claim C10: the TiKV ConfigMap task fails both on an unparseable
configuration and on a parseable one that sets an operator-managed field
(such as server.addr), leaving the ConfigHash unset; on a valid
configuration without managed fields it returns Complete with a non-empty
ConfigHash persisted as the config-hash label on the ConfigMap. -/
theorem c10_configmap_rule (fs : List String) (p : Bool) :
    ((tikvTaskConfigMap TiKVConfig.unparseable p).result = TaskStatusCode.fail ∧
     (tikvTaskConfigMap TiKVConfig.unparseable p).configHash = none) ∧
    (hasManagedField (TiKVConfig.fields fs) = true →
      (tikvTaskConfigMap (TiKVConfig.fields fs) p).result = TaskStatusCode.fail ∧
      (tikvTaskConfigMap (TiKVConfig.fields fs) p).configHash = none) ∧
    (hasManagedField (TiKVConfig.fields fs) = false →
      (tikvTaskConfigMap (TiKVConfig.fields fs) false).result = TaskStatusCode.complete ∧
      ∃ h, (tikvTaskConfigMap (TiKVConfig.fields fs) false).configHash = some h ∧
        h ≠ "" ∧
        (tikvTaskConfigMap (TiKVConfig.fields fs) false).cmLabelConfigHash = some h) := by
  refine ⟨⟨rfl, rfl⟩, ?_, ?_⟩
  · intro hm
    constructor <;> simp [tikvTaskConfigMap, hm]
  · intro hm
    refine ⟨?_, hashConfig fs, ?_, hashConfig_ne_empty fs, ?_⟩ <;>
      simp [tikvTaskConfigMap, hm]

/-- Claim C10 witness: the configuration setting server.addr fails with no
hash, and a valid configuration completes with its non-empty hash
persisted as the ConfigMap label. -/
theorem c10_configmap_rule_witness :
    ((tikvTaskConfigMap (TiKVConfig.fields ["server.addr"]) true).result = TaskStatusCode.fail ∧
     (tikvTaskConfigMap (TiKVConfig.fields ["server.addr"]) true).configHash = none) ∧
    ((tikvTaskConfigMap (TiKVConfig.fields ["log-level"]) false).result = TaskStatusCode.complete ∧
     ∃ h, (tikvTaskConfigMap (TiKVConfig.fields ["log-level"]) false).configHash = some h ∧
       h ≠ "" ∧
       (tikvTaskConfigMap (TiKVConfig.fields ["log-level"]) false).cmLabelConfigHash = some h) :=
  ⟨(c10_configmap_rule ["server.addr"] true).right.left (by decide),
   (c10_configmap_rule ["log-level"] false).right.right (by decide)⟩
